import Mathlib

/-!
Verification of the xbox-controller-server repository.

Floats of the Python source are modelled as rationals; the GPIO and PWM
hardware interfaces are modelled as explicit state and action traces.
Every definition below is a shallow embedding of a function of the
source, with the file and line range given in its doc comment.
-/

set_option linter.unusedVariables false

/-- One analog stick, two axes (the nested dicts of the controller state). -/
structure Stick where
  x : ℚ
  y : ℚ
deriving Repr, DecidableEq

/-- The two trigger axes. -/
structure TriggerPair where
  left : ℚ
  right : ℚ
deriving Repr, DecidableEq

/-- A controller snapshot: the value built by the sampler at
controller_input.py lines 95-100 and held in the shared state.  Buttons
are an association list from button name to boolean.  There is no
timestamp field: the dict literal has exactly the four keys below. -/
structure Snapshot where
  left_stick : Stick
  right_stick : Stick
  triggers : TriggerPair
  buttons : List (String × Bool)
deriving Repr, DecidableEq

/-- Top-level keys of the JSON object a snapshot serializes to
(the dict literal at controller_input.py lines 95-100). -/
def snapshotKeys : List String :=
  ["left_stick", "right_stick", "triggers", "buttons"]

/-- The transmitted datagram content: the dict built at server.py
lines 89-92, JSON-serialized by network_server.py send_data. -/
structure Envelope where
  timestamp : ℚ
  controller_data : Snapshot
deriving Repr, DecidableEq

/-- Top-level keys of the JSON object an envelope serializes to
(server.py lines 89-92). -/
def envelopeKeys : List String := ["timestamp", "controller_data"]

/-- A decoded datagram as the client sees it.  The field timestamp is
the result of data.get with no default (client.py line 69), hence an
Option; controller_data is the snapshot after the per-key defaulting
of the nested .get calls. -/
structure Packet where
  timestamp : Option ℚ
  controller_data : Snapshot
deriving Repr, DecidableEq

/-- The snapshot whose analog fields are all zero and whose button
mapping is empty. -/
def zeroSnap : Snapshot :=
  { left_stick := ⟨0, 0⟩, right_stick := ⟨0, 0⟩,
    triggers := ⟨0, 0⟩, buttons := [] }

/-- A motor command issued by the client to the MotorController
(client.py lines 92-95 and 110-113). -/
inductive MotorCmd where
  | right (speed : ℚ)
  | left (speed : ℚ)
  | forward (speed : ℚ)
  | backward (speed : ℚ)
deriving Repr, DecidableEq

/-- Python runtime errors the receive loop can catch. -/
inductive PyError where
  | typeError
deriving Repr, DecidableEq

/-- Steering branch of display_controller_data, client.py lines 92-95:
if left_stick x is positive steer right at x*100, else steer left at
x*100*(-1). -/
def steerCmd (ls : Stick) : MotorCmd :=
  if ls.x > 0 then .right (ls.x * 100) else .left (ls.x * 100 * (-1))

/-- Throttle branch of display_controller_data, client.py lines
104-113: if the right trigger magnitude r*100 is positive drive
forward at that magnitude, else drive backward at the left trigger
magnitude l*100. -/
def throttleCmd (tr : TriggerPair) : MotorCmd :=
  if tr.right * 100 > 0 then .forward (tr.right * 100)
  else .backward (tr.left * 100)

/-- display_controller_data, client.py lines 64-118, restricted to its
observable effects: given the current last_message_timestamp and the
decoded packet, it either raises a TypeError (the comparison
None < number at line 76, when the packet has no timestamp key),
returns with the state unchanged and no motor calls (line 77, stale
packet), or returns the new last_message_timestamp together with the
two motor calls it makes, steering first (line 92-95) then throttle
(line 110-113). -/
def display_controller_data (last : ℚ) (p : Packet) :
    Except PyError (ℚ × List MotorCmd) :=
  match p.timestamp with
  | none => .error .typeError
  | some ts =>
    if ts < last then .ok (last, [])
    else .ok (ts, [steerCmd p.controller_data.left_stick,
                   throttleCmd p.controller_data.triggers])

/-- One iteration of the receive loop body, client.py lines 44-55: a
successfully decoded packet is passed to display_controller_data; any
exception raised there is caught by the generic handler at lines 54-55,
logged, and the loop continues with the state unchanged and no motor
calls made. -/
def handlePacket (last : ℚ) (p : Packet) : ℚ × List MotorCmd :=
  match display_controller_data last p with
  | .ok r => r
  | .error _ => (last, [])

/-- Whether a packet is accepted by the freshness filter: the call
updates last_message_timestamp and issues motor commands (a rejected
or erroring packet issues none). -/
def accepts (last : ℚ) (p : Packet) : Bool :=
  match display_controller_data last p with
  | .ok (_, cmds) => !cmds.isEmpty
  | .error _ => false

/-- Feed a list of decoded packets through consecutive iterations of
the receive loop and collect the timestamps of the accepted ones. -/
def acceptedOf : ℚ → List Packet → List ℚ
  | _, [] => []
  | last, p :: rest =>
    match display_controller_data last p with
    | .error _ => acceptedOf last rest
    | .ok (last2, cmds) =>
      if cmds.isEmpty then acceptedOf last2 rest
      else last2 :: acceptedOf last2 rest

/-- Run the receive loop over a list of decoded packets, returning the
final last_message_timestamp and the concatenated motor calls. -/
def runLoop : ℚ → List Packet → ℚ × List MotorCmd
  | last, [] => (last, [])
  | last, p :: rest =>
    let r := handlePacket last p
    let rec2 := runLoop r.1 rest
    (rec2.1, r.2 ++ rec2.2)

/-- GPIO pin number, motor_controller.py line 31. -/
def LEFT_BACKWARD : ℕ := 17

/-- GPIO pin number, motor_controller.py line 32. -/
def LEFT_FORWARD : ℕ := 27

/-- GPIO pin number, motor_controller.py line 33. -/
def LEFT_ENABLE : ℕ := 18

/-- GPIO pin number, motor_controller.py line 35. -/
def RIGHT_BACKWARD : ℕ := 16

/-- GPIO pin number, motor_controller.py line 36. -/
def RIGHT_FORWARD : ℕ := 26

/-- GPIO pin number, motor_controller.py line 37. -/
def RIGHT_ENABLE : ℕ := 19

/-- Observable state of a MotorController instance: the level latched
on each of the four direction pins (true = HIGH), the duty cycle of
each PWM channel, whether the PWM outputs are running, whether the
GPIO pins are set up, and the internal initialization flag.  The
module is modelled with GPIO available (the hardware present), so the
GPIO_AVAILABLE guards of the source are always true here. -/
structure MCState where
  leftBackwardPin : Bool
  leftForwardPin : Bool
  rightBackwardPin : Bool
  rightForwardPin : Bool
  leftDuty : ℚ
  rightDuty : ℚ
  pwmOn : Bool
  pinsSetup : Bool
  inited : Bool
deriving Repr, DecidableEq

namespace MotorController

/-- State right after _setup_gpio succeeds, motor_controller.py lines
54-81: pins configured as outputs, PWM started at duty 0, the
initialization flag set. -/
def initState : MCState :=
  { leftBackwardPin := false, leftForwardPin := false,
    rightBackwardPin := false, rightForwardPin := false,
    leftDuty := 0, rightDuty := 0, pwmOn := true,
    pinsSetup := true, inited := true }

/-- forward, motor_controller.py lines 88-107: when initialized, latch
both channels forward (backward pins LOW, forward pins HIGH) and set
both duty cycles to the given speed; otherwise a warning no-op. -/
def forward (speed : ℚ) (s : MCState) : MCState :=
  if s.inited = false then s
  else
    { s with leftBackwardPin := false, leftForwardPin := true,
             rightBackwardPin := false, rightForwardPin := true,
             leftDuty := speed, rightDuty := speed }

/-- backward, motor_controller.py lines 109-128: when initialized,
latch both channels backward and set both duty cycles to the speed. -/
def backward (speed : ℚ) (s : MCState) : MCState :=
  if s.inited = false then s
  else
    { s with leftBackwardPin := true, leftForwardPin := false,
             rightBackwardPin := true, rightForwardPin := false,
             leftDuty := speed, rightDuty := speed }

/-- right, motor_controller.py lines 130-149: left channel forward,
right channel backward, both duty cycles set to the speed. -/
def right (speed : ℚ) (s : MCState) : MCState :=
  if s.inited = false then s
  else
    { s with leftBackwardPin := false, leftForwardPin := true,
             rightBackwardPin := true, rightForwardPin := false,
             leftDuty := speed, rightDuty := speed }

/-- left, motor_controller.py lines 151-170: left channel backward,
right channel forward, both duty cycles set to the speed. -/
def left (speed : ℚ) (s : MCState) : MCState :=
  if s.inited = false then s
  else
    { s with leftBackwardPin := true, leftForwardPin := false,
             rightBackwardPin := false, rightForwardPin := true,
             leftDuty := speed, rightDuty := speed }

/-- stop, motor_controller.py lines 172-181: when initialized, set both
duty cycles to 0. -/
def stop (s : MCState) : MCState :=
  if s.inited = false then s
  else { s with leftDuty := 0, rightDuty := 0 }

/-- cleanup, motor_controller.py lines 189-213: a no-op when not
initialized; otherwise stop the motors (duty 0), stop both PWM
outputs, release the GPIO pins, and clear the initialization flag.
The body is wrapped in try/except in the source, so it raises no
error; it is modelled as a total function. -/
def cleanup (s : MCState) : MCState :=
  if s.inited = false then s
  else
    let s1 := stop s
    { s1 with pwmOn := false, pinsSetup := false, inited := false }

/-- Dispatch one motor command issued by the client to the
corresponding MotorController method. -/
def applyCmd (c : MotorCmd) (s : MCState) : MCState :=
  match c with
  | .right sp => right sp s
  | .left sp => left sp s
  | .forward sp => forward sp s
  | .backward sp => backward sp s

/-- Apply a list of motor commands in order. -/
def runCmds (s : MCState) (cmds : List MotorCmd) : MCState :=
  cmds.foldl (fun st c => applyCmd c st) s

end MotorController

/-- One primitive hardware call made by a MotorController method:
either GPIO.output on a direction pin or ChangeDutyCycle on the PWM
object of an enable pin. -/
inductive GpioAction where
  | output (pin : ℕ) (level : Bool)
  | changeDuty (enablePin : ℕ) (duty : ℚ)
deriving Repr, DecidableEq

/-- Whether an action is a duty-cycle write. -/
def isDutyAction : GpioAction → Bool
  | .changeDuty _ _ => true
  | .output _ _ => false

/-- The hardware calls of forward, motor_controller.py lines 100-107,
in source order. -/
def forwardActions (speed : ℚ) : List GpioAction :=
  [.output LEFT_BACKWARD false, .output LEFT_FORWARD true,
   .output RIGHT_BACKWARD false, .output RIGHT_FORWARD true,
   .changeDuty LEFT_ENABLE speed, .changeDuty RIGHT_ENABLE speed]

/-- The hardware calls of backward, motor_controller.py lines 121-128,
in source order. -/
def backwardActions (speed : ℚ) : List GpioAction :=
  [.output LEFT_BACKWARD true, .output LEFT_FORWARD false,
   .output RIGHT_BACKWARD true, .output RIGHT_FORWARD false,
   .changeDuty LEFT_ENABLE speed, .changeDuty RIGHT_ENABLE speed]

/-- The hardware calls of right, motor_controller.py lines 142-149,
in source order. -/
def rightActions (speed : ℚ) : List GpioAction :=
  [.output LEFT_BACKWARD false, .output LEFT_FORWARD true,
   .output RIGHT_BACKWARD true, .output RIGHT_FORWARD false,
   .changeDuty LEFT_ENABLE speed, .changeDuty RIGHT_ENABLE speed]

/-- The hardware calls of left, motor_controller.py lines 163-170,
in source order. -/
def leftActions (speed : ℚ) : List GpioAction :=
  [.output LEFT_BACKWARD true, .output LEFT_FORWARD false,
   .output RIGHT_BACKWARD false, .output RIGHT_FORWARD true,
   .changeDuty LEFT_ENABLE speed, .changeDuty RIGHT_ENABLE speed]

/-- All direction-pin writes of a trace come before all duty writes:
the trace equals its direction writes followed by its duty writes. -/
def dirThenDuty (tr : List GpioAction) : Prop :=
  tr = tr.filter (fun a => !isDutyAction a) ++ tr.filter isDutyAction

/-- The end-to-end scenario snapshot of the spec: left stick x = 0.5,
right trigger = 0.8, button A pressed, everything else zero. -/
def scenarioSnap : Snapshot :=
  { left_stick := ⟨1/2, 0⟩, right_stick := ⟨0, 0⟩,
    triggers := ⟨0, 4/5⟩, buttons := [("A", true)] }

/-- A motor-controller state reports steering-right at magnitude m when
the pins are latched in the steer-right configuration (left channel
forward, right channel backward, motor_controller.py lines 142-146)
and both duty cycles equal m. -/
def steersRightAt (s : MCState) (m : ℚ) : Prop :=
  s.leftBackwardPin = false ∧ s.leftForwardPin = true ∧
  s.rightBackwardPin = true ∧ s.rightForwardPin = false ∧
  s.leftDuty = m ∧ s.rightDuty = m

/-- One tick of the transmit loop, server.py lines 86-97: read the
shared buffer and build the datagram dict, stamping timestamp with the
clock reading time.time() of this tick.  The snapshot read from the
buffer carries no timestamp; the stamp is added here only. -/
def sendTick (now : ℚ) (bufSnapshot : Snapshot) : Envelope :=
  { timestamp := now, controller_data := bufSnapshot }

/-- The transmit loop over a list of tick clock readings with a fixed
buffer content: exactly one datagram per tick. -/
def sendLoop (times : List ℚ) (bufSnapshot : Snapshot) : List Envelope :=
  times.map (fun t => sendTick t bufSnapshot)

/-- The controller state installed by ControllerInput before the
reader thread makes its first write, controller_input.py lines 22-27:
both sticks at (0,0), both triggers 0, empty button mapping. -/
def initial_controller_state : Snapshot :=
  { left_stick := ⟨0, 0⟩, right_stick := ⟨0, 0⟩,
    triggers := ⟨0, 0⟩, buttons := [] }

/-- Trace semantics of the shared single-slot buffer.  An operation is
either a write (controller_input.py lines 102-104: the loop replaces
the whole controller_state with a freshly built snapshot under the
lock) given as some snapshot, or a read (lines 131-134:
get_controller_state returns a copy of the current state under the
lock) given as none.  The result lists the value each read returns.
Because the writer installs a freshly constructed value and never
mutates the previous one in place, and readers get a copy, value
semantics is a faithful model of the source. -/
def runBuffer : Snapshot → List (Option Snapshot) → List Snapshot
  | _, [] => []
  | _, some s :: ops => runBuffer s ops
  | cur, none :: ops => cur :: runBuffer cur ops

/-- Round half to even (the semantics of the Python builtin round) to
an integer. -/
def pyRoundInt (x : ℚ) : ℤ :=
  if x - ⌊x⌋ < 1/2 then ⌊x⌋
  else if 1/2 < x - ⌊x⌋ then ⌊x⌋ + 1
  else if 2 ∣ ⌊x⌋ then ⌊x⌋ else ⌊x⌋ + 1

/-- Python round(x, 3): round half to even at the third decimal. -/
def round3 (x : ℚ) : ℚ := (pyRoundInt (x * 1000) : ℚ) / 1000

/-- Stick-axis normalization of the sampler, controller_input.py lines
77-80: the raw axis value rounded to 3 decimals. -/
def normStick (raw : ℚ) : ℚ := round3 raw

/-- Trigger normalization of the sampler, controller_input.py lines
82-84: affine remap of the raw [-1, 1] axis onto [0, 1] by
(raw + 1) / 2, rounded to 3 decimals. -/
def normTrigger (raw : ℚ) : ℚ := round3 ((raw + 1) / 2)

/-- Trigger handling of the pygame reader in xbox_controller_server.py,
lines 117-118: the raw axis value is rounded to 3 decimals and stored
directly, with no range remap. -/
def normPassTrigger (raw : ℚ) : ℚ := round3 raw

/-- The snapshot built by one iteration of the sampler loop from the
six raw axis readings and the named buttons, controller_input.py lines
77-100. -/
def buildSnapshot (a0 a1 a2 a3 a4 a5 : ℚ)
    (btns : List (String × Bool)) : Snapshot :=
  { left_stick := ⟨normStick a0, normStick a1⟩,
    right_stick := ⟨normStick a2, normStick a3⟩,
    triggers := ⟨normTrigger a4, normTrigger a5⟩,
    buttons := btns }

/-- CLAIM C1.  The receiver accepts a decoded packet exactly when its
timestamp is at least the current last_message_timestamp (client.py
line 76 rejects on strict <, line 21 initialises the state to 0), and
on the timestamp sequence [5, 3, 7, 7, 9] the accepted subsequence is
exactly [5, 7, 7, 9]. -/
theorem receiver_freshness_filter :
    (∀ last ts snap, accepts last ⟨some ts, snap⟩ = decide (last ≤ ts)) ∧
    acceptedOf 0 ((([5, 3, 7, 7, 9] : List ℚ)).map
      (fun t => ⟨some t, zeroSnap⟩)) = [5, 7, 7, 9] := by
  constructor
  · intro last ts snap
    simp only [accepts, display_controller_data]
    by_cases h : ts < last
    · simp [if_pos h, decide_eq_false (not_le.mpr h)]
    · simp [if_neg h, decide_eq_true (not_lt.mp h)]
  · decide

/-- CLAIM C2.  For every accepted snapshot the steering command is
derived from the left stick x axis: if x > 0 the client calls right
with magnitude x*100, otherwise left with magnitude -x*100 (client.py
lines 92-95); in particular x = 0 takes the left branch at magnitude
0, never the right branch. -/
theorem steering_policy (last ts : ℚ) (snap : Snapshot) (h : last ≤ ts) :
    display_controller_data last ⟨some ts, snap⟩ =
      .ok (ts, [(if 0 < snap.left_stick.x then
                   MotorCmd.right (snap.left_stick.x * 100)
                 else MotorCmd.left (-(snap.left_stick.x) * 100)),
                throttleCmd snap.triggers]) ∧
    steerCmd ⟨0, snap.left_stick.y⟩ = MotorCmd.left 0 := by
  have hsteer : steerCmd snap.left_stick =
      (if 0 < snap.left_stick.x then MotorCmd.right (snap.left_stick.x * 100)
       else MotorCmd.left (-(snap.left_stick.x) * 100)) := by
    unfold steerCmd
    split
    · rfl
    · congr 1
      ring
  constructor
  · simp only [display_controller_data]
    rw [if_neg (not_lt.mpr h), hsteer]
  · simp only [steerCmd]
    norm_num

/-- Witness for steering_policy at last = 0, ts = 1, the zero
snapshot. -/
theorem steering_policy_witness :
    display_controller_data 0 ⟨some 1, zeroSnap⟩ =
      .ok (1, [(if 0 < zeroSnap.left_stick.x then
                  MotorCmd.right (zeroSnap.left_stick.x * 100)
                else MotorCmd.left (-(zeroSnap.left_stick.x) * 100)),
               throttleCmd zeroSnap.triggers]) ∧
    steerCmd ⟨0, zeroSnap.left_stick.y⟩ = MotorCmd.left 0 :=
  steering_policy 0 1 zeroSnap (by norm_num)

/-- CLAIM C3.  For every accepted snapshot the throttle command is
derived from the two triggers: if right_trigger*100 > 0 the client
calls forward with that magnitude, otherwise backward with magnitude
left_trigger*100 (client.py lines 104-113); in particular both
triggers at 0 take the backward branch at magnitude 0. -/
theorem throttle_policy (last ts : ℚ) (snap : Snapshot) (h : last ≤ ts) :
    display_controller_data last ⟨some ts, snap⟩ =
      .ok (ts, [steerCmd snap.left_stick,
        (if 0 < snap.triggers.right * 100 then
           MotorCmd.forward (snap.triggers.right * 100)
         else MotorCmd.backward (snap.triggers.left * 100))]) ∧
    throttleCmd ⟨0, 0⟩ = MotorCmd.backward 0 := by
  constructor
  · simp only [display_controller_data]
    rw [if_neg (not_lt.mpr h)]
    rfl
  · simp only [throttleCmd]
    norm_num

/-- Witness for throttle_policy at last = 0, ts = 1, the zero
snapshot. -/
theorem throttle_policy_witness :
    display_controller_data 0 ⟨some 1, zeroSnap⟩ =
      .ok (1, [steerCmd zeroSnap.left_stick,
        (if 0 < zeroSnap.triggers.right * 100 then
           MotorCmd.forward (zeroSnap.triggers.right * 100)
         else MotorCmd.backward (zeroSnap.triggers.left * 100))]) ∧
    throttleCmd ⟨0, 0⟩ = MotorCmd.backward 0 :=
  throttle_policy 0 1 zeroSnap (by norm_num)

/-- CLAIM C9.  In each of the four drive operations all four
direction-pin writes come strictly before the two duty-cycle writes:
each trace equals its direction writes followed by its duty writes,
with exactly four direction writes and two duty writes. -/
theorem direction_pins_set_before_duty :
    (∀ sp : ℚ, dirThenDuty (forwardActions sp) ∧
      ((forwardActions sp).filter isDutyAction).length = 2 ∧
      ((forwardActions sp).filter (fun a => !isDutyAction a)).length = 4) ∧
    (∀ sp : ℚ, dirThenDuty (backwardActions sp) ∧
      ((backwardActions sp).filter isDutyAction).length = 2 ∧
      ((backwardActions sp).filter (fun a => !isDutyAction a)).length = 4) ∧
    (∀ sp : ℚ, dirThenDuty (rightActions sp) ∧
      ((rightActions sp).filter isDutyAction).length = 2 ∧
      ((rightActions sp).filter (fun a => !isDutyAction a)).length = 4) ∧
    (∀ sp : ℚ, dirThenDuty (leftActions sp) ∧
      ((leftActions sp).filter isDutyAction).length = 2 ∧
      ((leftActions sp).filter (fun a => !isDutyAction a)).length = 4) := by
  refine ⟨fun sp => ?_, fun sp => ?_, fun sp => ?_, fun sp => ?_⟩ <;>
    simp [dirThenDuty, forwardActions, backwardActions, rightActions,
      leftActions, isDutyAction, List.filter]

/-- CLAIM C8.  cleanup is idempotent and leaves both PWM outputs at
zero duty: for every reachable state (one where a cleared
initialization flag implies the duties are already 0, which holds on
every state the source can reach since only cleanup clears the flag
and it zeroes the duties first), a second cleanup changes nothing and
the duties after cleanup are 0. -/
theorem cleanup_idempotent (s : MCState)
    (h : s.inited = false → s.leftDuty = 0 ∧ s.rightDuty = 0) :
    MotorController.cleanup (MotorController.cleanup s) =
      MotorController.cleanup s ∧
    (MotorController.cleanup s).leftDuty = 0 ∧
    (MotorController.cleanup s).rightDuty = 0 := by
  by_cases hi : s.inited = false
  · have h1 : MotorController.cleanup s = s := by
      unfold MotorController.cleanup
      rw [if_pos hi]
    rw [h1]
    exact ⟨h1, (h hi).1, (h hi).2⟩
  · have h1 : MotorController.cleanup s =
        { s with leftDuty := 0, rightDuty := 0, pwmOn := false,
                 pinsSetup := false, inited := false } := by
      unfold MotorController.cleanup MotorController.stop
      rw [if_neg hi, if_neg hi]
    refine ⟨?_, by rw [h1], by rw [h1]⟩
    rw [h1]
    simp [MotorController.cleanup]

/-- Witness for cleanup_idempotent at the initial (READY) state. -/
theorem cleanup_idempotent_witness :
    MotorController.cleanup (MotorController.cleanup MotorController.initState) =
      MotorController.cleanup MotorController.initState ∧
    (MotorController.cleanup MotorController.initState).leftDuty = 0 ∧
    (MotorController.cleanup MotorController.initState).rightDuty = 0 :=
  cleanup_idempotent MotorController.initState (by decide)

/-- CLAIM C4, counterexample.  Processing the end-to-end scenario
snapshot (left stick x = 0.5, right trigger = 0.8) issues right 50 and
then forward 80; the forward call overwrites both direction pin pairs
and both duty cycles, so the final motor state does not report
steering-right at magnitude 50 — no trace of the 50 remains. -/
theorem scenario_final_state_not_steering :
    handlePacket 0 ⟨some 1, scenarioSnap⟩ =
      (1, [MotorCmd.right 50, MotorCmd.forward 80]) ∧
    ¬ steersRightAt
        (MotorController.runCmds MotorController.initState
          [MotorCmd.right 50, MotorCmd.forward 80]) 50 := by
  constructor
  · norm_num [handlePacket, display_controller_data, steerCmd, throttleCmd,
      scenarioSnap]
  · norm_num [MotorController.runCmds, MotorController.applyCmd,
      MotorController.right, MotorController.forward,
      MotorController.initState, steersRightAt]

theorem pyRoundInt_le {x : ℚ} {n : ℤ} (h : x ≤ n) : pyRoundInt x ≤ n := by
  have hf : ⌊x⌋ ≤ n := by
    have h2 := Int.floor_le_floor h
    rwa [Int.floor_intCast] at h2
  have key : ¬ (x - ⌊x⌋ < 1/2) → ⌊x⌋ + 1 ≤ n := by
    intro hr
    have h1 : (1 : ℚ)/2 ≤ x - ⌊x⌋ := not_lt.mp hr
    have h2 : (⌊x⌋ : ℚ) < (n : ℚ) := by
      have hx : x ≤ (n : ℚ) := h
      linarith
    have h3 : ⌊x⌋ < n := by exact_mod_cast h2
    omega
  unfold pyRoundInt
  split
  · exact hf
  · rename_i hr
    split
    · exact key hr
    · split
      · exact hf
      · exact key hr

theorem le_pyRoundInt {x : ℚ} {m : ℤ} (h : (m : ℚ) ≤ x) : m ≤ pyRoundInt x := by
  have hf : m ≤ ⌊x⌋ := Int.le_floor.mpr h
  unfold pyRoundInt
  split
  · exact hf
  · split
    · omega
    · split
      · exact hf
      · omega

theorem round3_bounds {x : ℚ} (h1 : -1 ≤ x) (h2 : x ≤ 1) :
    -1 ≤ round3 x ∧ round3 x ≤ 1 := by
  have hu : x * 1000 ≤ ((1000 : ℤ) : ℚ) := by push_cast; linarith
  have hl : ((-1000 : ℤ) : ℚ) ≤ x * 1000 := by push_cast; linarith
  have u : (pyRoundInt (x * 1000) : ℚ) ≤ 1000 := by
    exact_mod_cast pyRoundInt_le hu
  have l : (-1000 : ℚ) ≤ (pyRoundInt (x * 1000) : ℚ) := by
    exact_mod_cast le_pyRoundInt hl
  unfold round3
  constructor
  · linarith
  · linarith

theorem round3_bounds01 {x : ℚ} (h1 : 0 ≤ x) (h2 : x ≤ 1) :
    0 ≤ round3 x ∧ round3 x ≤ 1 := by
  have hu : x * 1000 ≤ ((1000 : ℤ) : ℚ) := by push_cast; linarith
  have hl : ((0 : ℤ) : ℚ) ≤ x * 1000 := by push_cast; linarith
  have u : (pyRoundInt (x * 1000) : ℚ) ≤ 1000 := by
    exact_mod_cast pyRoundInt_le hu
  have l : (0 : ℚ) ≤ (pyRoundInt (x * 1000) : ℚ) := by
    exact_mod_cast le_pyRoundInt hl
  unfold round3
  constructor
  · linarith
  · linarith

theorem getLast_getD_cons (w : Snapshot) (ws : List Snapshot) (cur : Snapshot) :
    ((w :: ws).getLast?).getD cur = (ws.getLast?).getD w := by
  induction ws generalizing w cur with
  | nil => rfl
  | cons b l ih =>
    rw [List.getLast?_cons_cons, ih b cur, ih b w]

/-- CLAIM C4, amended.  Each accepted snapshot produces the steering
command followed by the throttle command; every MotorController drive
call writes both direction pin pairs and both duty cycles, so the
throttle call supersedes the steering call in the final state.  For
the end-to-end scenario (first packet, timestamp ts with ts ≥ 0, left
stick x = 0.5, right trigger = 0.8) the receiver accepts the envelope
built by the transmitter, the client issues right 50 then forward 80,
the state between the two calls reports steering-right at magnitude
50, and the final state has both channels latched forward at duty 80. -/
theorem scenario_end_to_end (ts : ℚ) (h : 0 ≤ ts) :
    display_controller_data 0
        ⟨some (sendTick ts scenarioSnap).timestamp,
         (sendTick ts scenarioSnap).controller_data⟩ =
      .ok (ts, [MotorCmd.right 50, MotorCmd.forward 80]) ∧
    steersRightAt
      (MotorController.applyCmd (MotorCmd.right 50)
        MotorController.initState) 50 ∧
    MotorController.runCmds MotorController.initState
        [MotorCmd.right 50, MotorCmd.forward 80] =
      MotorController.forward 80
        (MotorController.right 50 MotorController.initState) ∧
    MotorController.runCmds MotorController.initState
        [MotorCmd.right 50, MotorCmd.forward 80] =
      { leftBackwardPin := false, leftForwardPin := true,
        rightBackwardPin := false, rightForwardPin := true,
        leftDuty := 80, rightDuty := 80, pwmOn := true,
        pinsSetup := true, inited := true } := by
  refine ⟨?_, ?_, rfl, ?_⟩
  · simp only [sendTick, display_controller_data]
    rw [if_neg (not_lt.mpr h)]
    norm_num [steerCmd, throttleCmd, scenarioSnap]
  · norm_num [MotorController.applyCmd, MotorController.right,
      MotorController.initState, steersRightAt]
  · norm_num [MotorController.runCmds, MotorController.applyCmd,
      MotorController.right, MotorController.forward,
      MotorController.initState]

/-- Witness for scenario_end_to_end at ts = 1. -/
theorem scenario_end_to_end_witness :
    display_controller_data 0
        ⟨some (sendTick 1 scenarioSnap).timestamp,
         (sendTick 1 scenarioSnap).controller_data⟩ =
      .ok (1, [MotorCmd.right 50, MotorCmd.forward 80]) ∧
    steersRightAt
      (MotorController.applyCmd (MotorCmd.right 50)
        MotorController.initState) 50 ∧
    MotorController.runCmds MotorController.initState
        [MotorCmd.right 50, MotorCmd.forward 80] =
      MotorController.forward 80
        (MotorController.right 50 MotorController.initState) ∧
    MotorController.runCmds MotorController.initState
        [MotorCmd.right 50, MotorCmd.forward 80] =
      { leftBackwardPin := false, leftForwardPin := true,
        rightBackwardPin := false, rightForwardPin := true,
        leftDuty := 80, rightDuty := 80, pwmOn := true,
        pinsSetup := true, inited := true } :=
  scenario_end_to_end 1 (by norm_num)

/-- CLAIM C5, counterexample.  The pygame reader of
xbox_controller_server.py stores the raw trigger axis rounded but not
remapped, so the valid raw reading -1/2 (within the raw [-1, 1] trigger
range) yields a normalized trigger value of -1/2, outside [0, 1]. -/
theorem pass_trigger_outside_interval :
    (-1 ≤ (-1/2 : ℚ) ∧ (-1/2 : ℚ) ≤ 1) ∧
    normPassTrigger (-1/2) = -1/2 ∧ ¬ (0 ≤ normPassTrigger (-1/2)) := by
  have hval : normPassTrigger (-1/2) = -1/2 := by
    unfold normPassTrigger round3 pyRoundInt
    norm_num
  refine ⟨by norm_num, hval, by rw [hval]; norm_num⟩

/-- CLAIM C5, amended.  For every valid raw axis reading in [-1, 1] the
src/server sampler keeps normalized sticks in [-1, 1] and normalized
triggers in [0, 1], with the boundary raw trigger values -1 and 1
mapping to the boundary outputs 0 and 1 of the affine remap
(raw + 1) / 2; the xbox_controller_server.py pygame variant stores the
raw trigger rounded with no remap, so its triggers are only guaranteed
to lie in [-1, 1].  The snapshot built by the sampler applies exactly
these normalizers to its analog fields. -/
theorem normalization_ranges (raw : ℚ) (h1 : -1 ≤ raw) (h2 : raw ≤ 1) :
    (-1 ≤ normStick raw ∧ normStick raw ≤ 1) ∧
    (0 ≤ normTrigger raw ∧ normTrigger raw ≤ 1) ∧
    (-1 ≤ normPassTrigger raw ∧ normPassTrigger raw ≤ 1) ∧
    normTrigger (-1) = 0 ∧ normTrigger 1 = 1 ∧
    (∀ a0 a1 a2 a3 a4 a5 btns,
      buildSnapshot a0 a1 a2 a3 a4 a5 btns =
        { left_stick := ⟨normStick a0, normStick a1⟩,
          right_stick := ⟨normStick a2, normStick a3⟩,
          triggers := ⟨normTrigger a4, normTrigger a5⟩,
          buttons := btns }) := by
  refine ⟨round3_bounds h1 h2, ?_, round3_bounds h1 h2, ?_, ?_,
    fun a0 a1 a2 a3 a4 a5 btns => rfl⟩
  · exact round3_bounds01 (by linarith) (by linarith) |>.imp id id
  · unfold normTrigger round3 pyRoundInt
    norm_num
  · unfold normTrigger round3 pyRoundInt
    norm_num

/-- Witness for normalization_ranges at raw = 1. -/
theorem normalization_ranges_witness :
    (-1 ≤ normStick 1 ∧ normStick 1 ≤ 1) ∧
    (0 ≤ normTrigger 1 ∧ normTrigger 1 ≤ 1) ∧
    (-1 ≤ normPassTrigger 1 ∧ normPassTrigger 1 ≤ 1) ∧
    normTrigger (-1) = 0 ∧ normTrigger 1 = 1 ∧
    (∀ a0 a1 a2 a3 a4 a5 btns,
      buildSnapshot a0 a1 a2 a3 a4 a5 btns =
        { left_stick := ⟨normStick a0, normStick a1⟩,
          right_stick := ⟨normStick a2, normStick a3⟩,
          triggers := ⟨normTrigger a4, normTrigger a5⟩,
          buttons := btns }) :=
  normalization_ranges 1 (by norm_num) (by norm_num)

/-- CLAIM C6.  The timestamp of each transmitted datagram is the clock
reading of the transmitting tick, stamped by the transmit loop onto
the snapshot read out of the buffer; over a whole run of the loop the
sequence of transmitted timestamps is exactly the sequence of tick
clock readings, one per datagram; the serialized snapshot has no
timestamp key, while the serialized envelope does. -/
theorem timestamp_assigned_by_transmitter :
    (∀ now buf, (sendTick now buf).timestamp = now ∧
      (sendTick now buf).controller_data = buf) ∧
    (∀ times buf,
      (sendLoop times buf).map Envelope.timestamp = times) ∧
    "timestamp" ∈ envelopeKeys ∧ "timestamp" ∉ snapshotKeys := by
  refine ⟨fun now buf => ⟨rfl, rfl⟩, fun times buf => ?_, ?_, ?_⟩
  · simp only [sendLoop, List.map_map]
    exact List.map_id times
  · simp [envelopeKeys]
  · simp [snapshotKeys]

/-- CLAIM C7.  Reading the shared buffer always yields a value: the
head of the outputs at a read operation is the current state, a write
replaces the state for the rest of the trace, reading after any list
of writes yields the last written snapshot (or, before the first
write, the documented zero default with empty button mapping), and the
value a read produces is fixed at that point of the trace — it does
not depend on the operations that follow. -/
theorem buffer_read_contract :
    (∀ (cur : Snapshot) ops, (runBuffer cur (none :: ops)).head? = some cur) ∧
    (∀ (cur s : Snapshot) ops,
      runBuffer cur (some s :: ops) = runBuffer s ops) ∧
    (∀ (cur : Snapshot) (ws : List Snapshot),
      runBuffer cur (ws.map some ++ [none]) = [(ws.getLast?).getD cur]) ∧
    runBuffer initial_controller_state [none] = [initial_controller_state] ∧
    initial_controller_state =
      { left_stick := ⟨0, 0⟩, right_stick := ⟨0, 0⟩,
        triggers := ⟨0, 0⟩, buttons := [] } := by
  refine ⟨fun cur ops => rfl, fun cur s ops => rfl, ?_, rfl, rfl⟩
  intro cur ws
  induction ws generalizing cur with
  | nil => rfl
  | cons w rest ih =>
    rw [List.map_cons, List.cons_append]
    show runBuffer w (rest.map some ++ [none]) = _
    rw [ih w, getLast_getD_cons]

/-- CLAIM C10.  A decoded packet without a timestamp key makes the
freshness comparison raise a TypeError (None < number, client.py line
76) before any state update or motor call; the generic handler at
client.py lines 54-55 catches it, so the packet is discarded with
last_message_timestamp unchanged and no motor command issued, and the
loop goes on to process the remaining packets as if the packet had
never arrived. -/
theorem missing_timestamp_discarded (last : ℚ) (snap : Snapshot)
    (rest : List Packet) :
    display_controller_data last ⟨none, snap⟩ = .error .typeError ∧
    handlePacket last ⟨none, snap⟩ = (last, []) ∧
    runLoop last (⟨none, snap⟩ :: rest) = runLoop last rest := by
  refine ⟨rfl, rfl, ?_⟩
  simp [runLoop, handlePacket, display_controller_data]
